import Mathlib

/-!
Verification of `src/Week3/vertex_pipeline/main.cpp` (CGISR repository).

Shallow embedding conventions:
* C++ `int` / GLSL `int` values are modelled as `Int`; `unsigned int` array
  sizes and index data as `Nat`.
* `float` literals are modelled by their decimal value as rationals
  (`0.5f ↦ 1/2`, `0.1f ↦ 1/10`, and so on).
* GLSL vector/matrix arithmetic in the vertex shader is modelled by exact
  rational 4x4 matrices (`Mat4`) with explicit row/column products.
* The math collaborator (glm) is a black box per the design: the per-frame
  matrix construction is modelled symbolically as the sequence of glm calls
  made by the render loop (`GlmMat`), recording each constructor and its
  exact arguments.
* Fallible control flow in `main` is modelled by an environment of success
  flags for the external calls and a pure function from that environment to
  the observable outcome (exit code, diagnostics, whether the render loop
  was reached).
-/

namespace CGISR

/-! ### Windowing-collaborator constants (GLFW/glfw3.h values used by main.cpp) -/

def GLFW_RELEASE : Int := 0

def GLFW_PRESS : Int := 1

def GLFW_REPEAT : Int := 2

def GLFW_KEY_1 : Int := 49

def GLFW_KEY_2 : Int := 50

def GLFW_KEY_3 : Int := 51

def GLFW_KEY_4 : Int := 52

def GLFW_KEY_ESCAPE : Int := 256

/-! ### Window dimensions (main.cpp lines 12-13) -/

def SCR_WIDTH : Nat := 800

def SCR_HEIGHT : Nat := 600

/-! ### CoordinateSpace enum (main.cpp lines 16-21) and the global (line 24) -/

def MODEL_SPACE : Int := 0

def WORLD_SPACE : Int := 1

def VIEW_SPACE : Int := 2

def CLIP_SPACE : Int := 3

/-- main.cpp line 24: `int activeSpace = MODEL_SPACE;` -/
def activeSpaceInit : Int := MODEL_SPACE

/-! ### Input Dispatcher (main.cpp lines 297-315) -/

/-- main.cpp lines 297-315, `key_callback`: takes the event's key and action
and the current value of the global `activeSpace`, returns the new value. -/
def key_callback (key : Int) (action : Int) (activeSpace : Int) : Int :=
  if action = GLFW_PRESS then
    if key = GLFW_KEY_1 then MODEL_SPACE
    else if key = GLFW_KEY_2 then WORLD_SPACE
    else if key = GLFW_KEY_3 then VIEW_SPACE
    else if key = GLFW_KEY_4 then CLIP_SPACE
    else activeSpace
  else activeSpace

/-- Value of the global `activeSpace` after a sequence of (key, action)
events dispatched to `key_callback`, starting from its initializer. -/
def activeSpaceAfter (events : List (Int × Int)) : Int :=
  events.foldl (fun s ev => key_callback ev.1 ev.2 s) activeSpaceInit

/-! ### processInput and the render loop's close-request behaviour
(main.cpp lines 214-271 and 284-288) -/

/-- main.cpp lines 284-288, `processInput`: polls the current state of the
Escape key (`glfwGetKey` returns `GLFW_PRESS` or `GLFW_RELEASE`) and, when
pressed, sets the window's should-close flag to true. Returns the new flag. -/
def processInput (escState : Int) (shouldClose : Bool) : Bool :=
  if escState = GLFW_PRESS then true else shouldClose

/-- The render loop (main.cpp lines 214-271) restricted to its observable
close-request behaviour. Input: per-frame polled Escape-key states; the loop
runs a frame only while the should-close flag is false (line 214) and each
frame calls `processInput` (line 217). Returns (frames executed, number of
`glfwSetWindowShouldClose(window, true)` calls issued, final flag). -/
def loopRun : List Int → Bool → Nat × Nat × Bool
  | [], sc => (0, 0, sc)
  | e :: rest, sc =>
    if sc then (0, 0, sc)
    else
      let r := loopRun rest (processInput e sc)
      (r.1 + 1, (if e = GLFW_PRESS then 1 else 0) + r.2.1, r.2.2)

/-! ### Resize callback (main.cpp lines 291-294) -/

/-- The rectangle passed to `glViewport`. -/
structure Viewport where
  x : Int
  y : Int
  width : Int
  height : Int
deriving DecidableEq, Repr

/-- main.cpp lines 291-294, `framebuffer_size_callback`: calls
`glViewport(0, 0, width, height)`; the result is the viewport it sets. -/
def framebuffer_size_callback (width height : Int) : Viewport :=
  ⟨0, 0, width, height⟩

/-! ### Cube geometry (main.cpp lines 150-188) and the draw call (line 248) -/

/-- A 3-component float vector (vertex position, glm::vec3 argument). -/
structure Vec3 where
  x : ℚ
  y : ℚ
  z : ℚ
deriving DecidableEq, Repr

/-- main.cpp lines 150-162: the `vertices` array, grouped in triples per the
attribute layout of line 204 (3 floats, stride 3 floats, offset 0). -/
def vertices : List Vec3 :=
  [⟨-1/2, -1/2,  1/2⟩,
   ⟨ 1/2, -1/2,  1/2⟩,
   ⟨ 1/2,  1/2,  1/2⟩,
   ⟨-1/2,  1/2,  1/2⟩,
   ⟨-1/2, -1/2, -1/2⟩,
   ⟨ 1/2, -1/2, -1/2⟩,
   ⟨ 1/2,  1/2, -1/2⟩,
   ⟨-1/2,  1/2, -1/2⟩]

/-- main.cpp lines 164-188: the `indices` array. -/
def indices : List Nat :=
  [0, 1, 2,  2, 3, 0,
   1, 5, 6,  6, 2, 1,
   5, 4, 7,  7, 6, 5,
   4, 0, 3,  3, 7, 4,
   3, 2, 6,  6, 7, 3,
   4, 5, 1,  1, 0, 4]

/-- main.cpp line 248: `glDrawElements(GL_TRIANGLES, 36, GL_UNSIGNED_INT, 0)`
draws this many indexed vertices. -/
def drawElementsCount : Nat := 36

/-! ### Vertex shader (main.cpp lines 27-64, `vertexShaderSource`) -/

/-- A GLSL `vec4`, with exact rational components. -/
structure Vec4 where
  x : ℚ
  y : ℚ
  z : ℚ
  w : ℚ
deriving DecidableEq, Repr

/-- A GLSL `mat4`, stored as four rows of rational entries. -/
structure Mat4 where
  r0 : Vec4
  r1 : Vec4
  r2 : Vec4
  r3 : Vec4
deriving DecidableEq, Repr

def dot4 (a b : Vec4) : ℚ :=
  a.x * b.x + a.y * b.y + a.z * b.z + a.w * b.w

def Mat4.c0 (A : Mat4) : Vec4 := ⟨A.r0.x, A.r1.x, A.r2.x, A.r3.x⟩

def Mat4.c1 (A : Mat4) : Vec4 := ⟨A.r0.y, A.r1.y, A.r2.y, A.r3.y⟩

def Mat4.c2 (A : Mat4) : Vec4 := ⟨A.r0.z, A.r1.z, A.r2.z, A.r3.z⟩

def Mat4.c3 (A : Mat4) : Vec4 := ⟨A.r0.w, A.r1.w, A.r2.w, A.r3.w⟩

/-- GLSL `mat4 * vec4`. -/
def matVec (A : Mat4) (v : Vec4) : Vec4 :=
  ⟨dot4 A.r0 v, dot4 A.r1 v, dot4 A.r2 v, dot4 A.r3 v⟩

/-- GLSL `mat4 * mat4`. -/
def matMul (A B : Mat4) : Mat4 :=
  ⟨⟨dot4 A.r0 B.c0, dot4 A.r0 B.c1, dot4 A.r0 B.c2, dot4 A.r0 B.c3⟩,
   ⟨dot4 A.r1 B.c0, dot4 A.r1 B.c1, dot4 A.r1 B.c2, dot4 A.r1 B.c3⟩,
   ⟨dot4 A.r2 B.c0, dot4 A.r2 B.c1, dot4 A.r2 B.c2, dot4 A.r2 B.c3⟩,
   ⟨dot4 A.r3 B.c0, dot4 A.r3 B.c1, dot4 A.r3 B.c2, dot4 A.r3 B.c3⟩⟩

/-- GLSL `vec4(aPos, 1.0)`. -/
def vec4ofVec3 (v : Vec3) (w : ℚ) : Vec4 := ⟨v.x, v.y, v.z, w⟩

/-- `glm::mat4(1.0f)`, the identity matrix value. -/
def mat4one : Mat4 :=
  ⟨⟨1, 0, 0, 0⟩, ⟨0, 1, 0, 0⟩, ⟨0, 0, 1, 0⟩, ⟨0, 0, 0, 1⟩⟩

/-- The two shader outputs written by the vertex shader's `main`. -/
structure VSOut where
  gl_Position : Vec4
  vertexColor : Vec3
deriving DecidableEq, Repr

/-- main.cpp lines 38-63: the vertex shader's `main`, as a function of the
`activeSpace` uniform, the three matrix uniforms and the `aPos` attribute.
GLSL `a * b * c` associates left, so `projection * view * model * v` is
`((projection * view) * model) * v`. When no branch of the if/else-if chain
is taken neither output is assigned, modelled as `none`. The intermediate
`modelPos`/`worldPos`/`viewPos`/`clipPos` of lines 41-44 are computed but do
not feed the outputs. -/
def vertexShaderMain (activeSpace : Int) (model view projection : Mat4)
    (aPos : Vec3) : Option VSOut :=
  let modelPos := vec4ofVec3 aPos 1
  let worldPos := matVec model modelPos
  let viewPos := matVec view worldPos
  let _clipPos := matVec projection viewPos
  if activeSpace = 0 then
    some ⟨matVec (matMul projection view) (vec4ofVec3 aPos 1), ⟨1, 0, 0⟩⟩
  else if activeSpace = 1 then
    some ⟨matVec (matMul (matMul projection view) model) (vec4ofVec3 aPos 1), ⟨0, 1, 0⟩⟩
  else if activeSpace = 2 then
    some ⟨matVec (matMul (matMul projection view) model) (vec4ofVec3 aPos 1), ⟨0, 0, 1⟩⟩
  else if activeSpace = 3 then
    some ⟨matVec (matMul (matMul projection view) model) (vec4ofVec3 aPos 1), ⟨1, 1, 0⟩⟩
  else
    none

/-! ### Per-frame transform construction (main.cpp lines 226-233)

The math collaborator (glm) is external to the repository, so the matrices
are modelled symbolically: a `GlmMat` term records exactly which glm
constructors the render loop invokes and with which arguments. -/

/-- An angle argument as the render loop produces it: either the elapsed
time `(float)glfwGetTime()` in seconds (glm::rotate interprets it in
radians), or `glm::radians(deg)` applied to a degree literal. -/
inductive AngleExpr
  | seconds (t : ℚ)
  | radiansOfDeg (deg : ℚ)
deriving DecidableEq, Repr

/-- A glm matrix expression as constructed by the render loop. -/
inductive GlmMat
  | identity
  | rotate (m : GlmMat) (angle : AngleExpr) (axis : Vec3)
  | translate (m : GlmMat) (v : Vec3)
  | perspective (fovy : AngleExpr) (aspect : ℚ) (near : ℚ) (far : ℚ)
deriving DecidableEq, Repr

/-- The `aspect` argument of a `perspective` term, when the term is one. -/
def GlmMat.aspectArg : GlmMat → Option ℚ
  | .perspective _ a _ _ => some a
  | _ => none

/-- main.cpp lines 226-233: the three transform matrices built by each
render-loop iteration. They are rebuilt from local variables each frame;
the only frame-varying input read is `glfwGetTime()`, here the parameter
`t` (elapsed time in seconds), so the function takes nothing else. -/
def frameTransforms (t : ℚ) : GlmMat × GlmMat × GlmMat :=
  let model := GlmMat.identity
  let model := GlmMat.rotate model (AngleExpr.seconds t) ⟨1/2, 1, 0⟩
  let view := GlmMat.identity
  let view := GlmMat.translate view ⟨0, 0, -3⟩
  let projection := GlmMat.perspective (AngleExpr.radiansOfDeg 45)
      ((SCR_WIDTH : ℚ) / (SCR_HEIGHT : ℚ)) (1/10) 100
  (model, view, projection)

/-! ### Fatal and non-fatal failure handling in `main`
(main.cpp lines 83-281) -/

/-- Success flags for the external calls `main` makes before the loop. -/
structure Env where
  windowOk : Bool
  gladOk : Bool
  vertexCompileOk : Bool
  fragmentCompileOk : Bool
  linkOk : Bool
deriving DecidableEq, Repr

/-- The observable outcome of `main`. -/
structure MainOutcome where
  exitCode : Int
  diagnostics : List String
  enteredRenderLoop : Bool
deriving DecidableEq, Repr

/-- main.cpp lines 83-281: control flow of `main` over the failure flags.
A NULL window (lines 93-98) and a GLAD failure (lines 104-108) each print a
diagnostic and `return -1`. Shader compile failures (lines 118-122,
129-133) and link failure (lines 142-145) print a diagnostic and fall
through; the render loop is then reached and a normal close returns 0
(line 280). -/
def mainRun (env : Env) : MainOutcome :=
  if !env.windowOk then
    { exitCode := -1
      diagnostics := ["Failed to create GLFW window"]
      enteredRenderLoop := false }
  else if !env.gladOk then
    { exitCode := -1
      diagnostics := ["Failed to initialize GLAD"]
      enteredRenderLoop := false }
  else
    let d1 := if !env.vertexCompileOk then
        ["ERROR::SHADER::VERTEX::COMPILATION_FAILED"] else []
    let d2 := if !env.fragmentCompileOk then
        ["ERROR::SHADER::FRAGMENT::COMPILATION_FAILED"] else []
    let d3 := if !env.linkOk then
        ["ERROR::SHADER::PROGRAM::LINKING_FAILED"] else []
    { exitCode := 0
      diagnostics := d1 ++ d2 ++ d3
      enteredRenderLoop := true }

/-! ### Helper lemmas -/

lemma loopRun_closed (l : List Int) : loopRun l true = (0, 0, true) := by
  cases l <;> simp [loopRun]

lemma loopRun_press (l : List Int) : loopRun (GLFW_PRESS :: l) false = (1, 1, true) := by
  simp [loopRun, processInput, loopRun_closed]

lemma loopRun_release (l : List Int) :
    loopRun (GLFW_RELEASE :: l) false =
      ((loopRun l false).1 + 1, (loopRun l false).2.1, (loopRun l false).2.2) := by
  have h : ¬((GLFW_RELEASE : Int) = GLFW_PRESS) := by decide
  simp [loopRun, processInput, h]

lemma loopRun_release_prefix (k : Nat) (l : List Int) :
    loopRun (List.replicate k GLFW_RELEASE ++ l) false =
      ((loopRun l false).1 + k, (loopRun l false).2.1, (loopRun l false).2.2) := by
  induction k with
  | zero => simp
  | succ n ih =>
    rw [List.replicate_succ, List.cons_append, loopRun_release, ih]
    dsimp only
    rw [Nat.add_assoc]

lemma key_callback_mem (key action s : Int)
    (h : s ∈ ({0, 1, 2, 3} : Finset Int)) :
    key_callback key action s ∈ ({0, 1, 2, 3} : Finset Int) := by
  unfold key_callback
  split_ifs <;> first
    | exact h
    | decide

lemma foldl_key_callback_mem (events : List (Int × Int)) (s : Int)
    (h : s ∈ ({0, 1, 2, 3} : Finset Int)) :
    events.foldl (fun a ev => key_callback ev.1 ev.2 a) s ∈
      ({0, 1, 2, 3} : Finset Int) := by
  induction events generalizing s with
  | nil => simpa using h
  | cons e rest ih =>
    rw [List.foldl_cons]
    exact ih _ (key_callback_mem e.1 e.2 s h)

lemma activeSpaceAfter_mem (events : List (Int × Int)) :
    activeSpaceAfter events ∈ ({0, 1, 2, 3} : Finset Int) :=
  foldl_key_callback_mem events activeSpaceInit (by decide)

lemma vertexShaderMain_isSome_of_mem (a : Int) (m v p : Mat4) (aPos : Vec3)
    (h : a ∈ ({0, 1, 2, 3} : Finset Int)) :
    (vertexShaderMain a m v p aPos).isSome = true := by
  fin_cases h <;> simp [vertexShaderMain]

/-! ### Claim theorems -/

/-- C1: for every vertex position and every activeSpace in 0..3, the vertex
shader emits clip position `projection * view * model * p` when activeSpace
is 1, 2 or 3, and `projection * view * p` (model not applied) when
activeSpace is 0; the output color is the fixed mapping 0→red, 1→green,
2→blue, 3→yellow, independent of the matrices and the position. -/
theorem C1_vertex_shader_position_and_color (m v p : Mat4) (aPos : Vec3) :
    vertexShaderMain 0 m v p aPos =
      some ⟨matVec (matMul p v) (vec4ofVec3 aPos 1), ⟨1, 0, 0⟩⟩ ∧
    vertexShaderMain 1 m v p aPos =
      some ⟨matVec (matMul (matMul p v) m) (vec4ofVec3 aPos 1), ⟨0, 1, 0⟩⟩ ∧
    vertexShaderMain 2 m v p aPos =
      some ⟨matVec (matMul (matMul p v) m) (vec4ofVec3 aPos 1), ⟨0, 0, 1⟩⟩ ∧
    vertexShaderMain 3 m v p aPos =
      some ⟨matVec (matMul (matMul p v) m) (vec4ofVec3 aPos 1), ⟨1, 1, 0⟩⟩ := by
  refine ⟨?_, ?_, ?_, ?_⟩ <;> simp [vertexShaderMain]

/-- C2 counterexample: after a resize to (400, 400) the viewport is indeed
set to (0, 0, 400, 400), but the projection built by every subsequent frame
uses the constant aspect `SCR_WIDTH / SCR_HEIGHT = 800/600` (main.cpp line
233), not `400/400` as the claim requires. -/
theorem C2_counterexample :
    framebuffer_size_callback 400 400 = ⟨0, 0, 400, 400⟩ ∧
    (frameTransforms 0).2.2.aspectArg = some (800 / 600 : ℚ) ∧
    (800 / 600 : ℚ) ≠ (400 / 400 : ℚ) := by
  refine ⟨rfl, ?_, by norm_num⟩
  norm_num [frameTransforms, GlmMat.aspectArg, SCR_WIDTH, SCR_HEIGHT]

/-- C2 amended: after a window resize to (W, H) the viewport is set to
origin (0,0) with dimensions (W, H); the projection matrix computed in every
subsequent frame uses the fixed aspect ratio SCR_WIDTH/SCR_HEIGHT = 800/600,
unaffected by the resize. -/
theorem C2_amended_viewport_and_fixed_aspect (W H : Int) (t : ℚ) :
    framebuffer_size_callback W H = ⟨0, 0, W, H⟩ ∧
    (frameTransforms t).2.2.aspectArg = some (800 / 600 : ℚ) := by
  refine ⟨rfl, ?_⟩
  norm_num [frameTransforms, GlmMat.aspectArg, SCR_WIDTH, SCR_HEIGHT]

/-- C3: a press of Escape sets the close-request flag to true exactly once
per press edge. With the key released for `k` frames and then held for any
positive number of frames, the loop runs `k+1` frames, issues exactly one
set-close call, and ends with the flag true — and the whole observable
triple is identical to that of a single one-frame press, regardless of the
hold duration and of any later input. -/
theorem C3_escape_close_once (k n : Nat) (rest rest2 : List Int) :
    loopRun (List.replicate k GLFW_RELEASE ++
        (List.replicate (n + 1) GLFW_PRESS ++ rest)) false = (k + 1, 1, true) ∧
    loopRun (List.replicate k GLFW_RELEASE ++
        (List.replicate (n + 1) GLFW_PRESS ++ rest)) false =
      loopRun (List.replicate k GLFW_RELEASE ++ (GLFW_PRESS :: rest2)) false := by
  have hheld : loopRun (List.replicate (n + 1) GLFW_PRESS ++ rest) false = (1, 1, true) := by
    rw [List.replicate_succ, List.cons_append]
    exact loopRun_press _
  have h1 := loopRun_release_prefix k (List.replicate (n + 1) GLFW_PRESS ++ rest)
  have h2 := loopRun_release_prefix k (GLFW_PRESS :: rest2)
  rw [hheld] at h1
  rw [loopRun_press] at h2
  refine ⟨?_, by rw [h1, h2]⟩
  rw [h1]
  dsimp only
  rw [Nat.add_comm 1 k]

/-- C4: a press event for key '1'..'4' sets activeSpace to 0..3 respectively
regardless of the prior state; a press of any other key, or any non-press
action, leaves activeSpace unchanged. -/
theorem C4_key_callback_transitions (s : Int) :
    key_callback GLFW_KEY_1 GLFW_PRESS s = MODEL_SPACE ∧
    key_callback GLFW_KEY_2 GLFW_PRESS s = WORLD_SPACE ∧
    key_callback GLFW_KEY_3 GLFW_PRESS s = VIEW_SPACE ∧
    key_callback GLFW_KEY_4 GLFW_PRESS s = CLIP_SPACE ∧
    (∀ key : Int, key ≠ GLFW_KEY_1 → key ≠ GLFW_KEY_2 → key ≠ GLFW_KEY_3 →
      key ≠ GLFW_KEY_4 → key_callback key GLFW_PRESS s = s) ∧
    (∀ key action : Int, action ≠ GLFW_PRESS → key_callback key action s = s) := by
  refine ⟨rfl, rfl, rfl, rfl, ?_, ?_⟩
  · intro key h1 h2 h3 h4
    simp [key_callback, h1, h2, h3, h4]
  · intro key action h
    simp [key_callback, h]

/-- C4 witness: pressing 'A' (key 65) leaves state 2 unchanged; a release
event for key '2' leaves state 3 unchanged. -/
theorem C4_witness :
    key_callback 65 GLFW_PRESS 2 = 2 ∧
    key_callback GLFW_KEY_2 GLFW_RELEASE 3 = 3 :=
  ⟨(C4_key_callback_transitions 2).2.2.2.2.1 65
      (by decide) (by decide) (by decide) (by decide),
   (C4_key_callback_transitions 3).2.2.2.2.2 GLFW_KEY_2 GLFW_RELEASE (by decide)⟩

/-- C5: activeSpace is initialized to MODEL_SPACE = 0; after any sequence of
key events its value lies in {0,1,2,3}; and every single `key_callback`
write preserves membership in {0,1,2,3}. -/
theorem C5_activeSpace_invariant :
    activeSpaceInit = 0 ∧
    (∀ events : List (Int × Int),
      activeSpaceAfter events ∈ ({0, 1, 2, 3} : Finset Int)) ∧
    (∀ key action s : Int, s ∈ ({0, 1, 2, 3} : Finset Int) →
      key_callback key action s ∈ ({0, 1, 2, 3} : Finset Int)) :=
  ⟨rfl, activeSpaceAfter_mem, key_callback_mem⟩

/-- C5 witness: the preservation clause at key 70, action 2, state 3. -/
theorem C5_witness :
    (3 : Int) ∈ ({0, 1, 2, 3} : Finset Int) ∧
    key_callback 70 2 3 ∈ ({0, 1, 2, 3} : Finset Int) :=
  ⟨by decide, C5_activeSpace_invariant.2.2 70 2 3 (by decide)⟩

/-- C6: main exits with -1 exactly when window creation or GLAD loading
fails, and then a diagnostic was printed; when both succeed the render loop
is reached and a normal close returns 0, with shader compile/link failures
only emitting diagnostics while execution continues into the loop. -/
theorem C6_exit_codes (env : Env) :
    ((mainRun env).exitCode = -1 ↔ env.windowOk = false ∨ env.gladOk = false) ∧
    ((mainRun env).exitCode = -1 → (mainRun env).diagnostics ≠ []) ∧
    (env.windowOk = true → env.gladOk = true →
      (mainRun env).exitCode = 0 ∧ (mainRun env).enteredRenderLoop = true) ∧
    (env.windowOk = true → env.gladOk = true →
      (env.vertexCompileOk = false ∨ env.fragmentCompileOk = false ∨
        env.linkOk = false) →
      (mainRun env).diagnostics ≠ [] ∧ (mainRun env).enteredRenderLoop = true) := by
  rcases env with ⟨w, g, vc, fc, lk⟩
  cases w <;> cases g <;> cases vc <;> cases fc <;> cases lk <;>
    simp [mainRun]

/-- C6 witness: window failure prints a diagnostic; full success exits 0 and
reaches the loop; a vertex-shader compile failure still reaches the loop. -/
theorem C6_witness :
    (mainRun ⟨false, true, true, true, true⟩).diagnostics ≠ [] ∧
    ((mainRun ⟨true, true, true, true, true⟩).exitCode = 0 ∧
      (mainRun ⟨true, true, true, true, true⟩).enteredRenderLoop = true) ∧
    ((mainRun ⟨true, true, false, true, true⟩).diagnostics ≠ [] ∧
      (mainRun ⟨true, true, false, true, true⟩).enteredRenderLoop = true) :=
  ⟨(C6_exit_codes ⟨false, true, true, true, true⟩).2.1 (by decide),
   (C6_exit_codes ⟨true, true, true, true, true⟩).2.2.1 rfl rfl,
   (C6_exit_codes ⟨true, true, false, true, true⟩).2.2.2 rfl rfl (Or.inl rfl)⟩

/-- C7: each render-loop iteration rebuilds the transforms from the elapsed
time alone: model = identity rotated by the elapsed seconds (radians) about
the non-normalized axis (0.5, 1, 0); view = identity translated by
(0, 0, -3); projection = perspective with fovy 45 degrees, near 0.1,
far 100. -/
theorem C7_frame_transforms (t : ℚ) :
    frameTransforms t =
      (GlmMat.rotate GlmMat.identity (AngleExpr.seconds t) ⟨1/2, 1, 0⟩,
       GlmMat.translate GlmMat.identity ⟨0, 0, -3⟩,
       GlmMat.perspective (AngleExpr.radiansOfDeg 45) (4/3 : ℚ) (1/10) 100) := by
  norm_num [frameTransforms, SCR_WIDTH, SCR_HEIGHT]

/-- C8: the geometry is exactly 8 vertices with coordinates in {-1/2, 1/2},
distinct and forming precisely the corner set of the unit cube centered at
the origin; the index buffer holds exactly 36 entries (12 triangles) and the
draw call draws exactly 36 indexed vertices. -/
theorem C8_cube_geometry :
    vertices.length = 8 ∧
    (∀ v ∈ vertices,
      (v.x = -(1/2 : ℚ) ∨ v.x = 1/2) ∧ (v.y = -(1/2 : ℚ) ∨ v.y = 1/2) ∧
      (v.z = -(1/2 : ℚ) ∨ v.z = 1/2)) ∧
    vertices.Nodup ∧
    (∀ a b c : ℚ, (a = -(1/2) ∨ a = 1/2) → (b = -(1/2) ∨ b = 1/2) →
      (c = -(1/2) ∨ c = 1/2) → Vec3.mk a b c ∈ vertices) ∧
    indices.length = 36 ∧
    indices.length = 3 * 12 ∧
    drawElementsCount = 36 ∧
    drawElementsCount = indices.length := by
  refine ⟨rfl, ?_, ?_, ?_, rfl, rfl, rfl, rfl⟩
  · intro v hv
    simp only [vertices] at hv
    fin_cases hv <;> norm_num
  · norm_num [vertices]
  · intro a b c ha hb hc
    rcases ha with ha | ha <;> rcases hb with hb | hb <;> rcases hc with hc | hc <;>
      subst ha <;> subst hb <;> subst hc <;> norm_num [vertices]

/-- C8 witness: the corner-membership clause at the corner (-1/2, 1/2, 1/2). -/
theorem C8_witness : Vec3.mk (-(1/2)) (1/2) (1/2) ∈ vertices :=
  C8_cube_geometry.2.2.2.1 (-(1/2)) (1/2) (1/2)
    (Or.inl rfl) (Or.inr rfl) (Or.inr rfl)

/-- C9: every entry of the 36-element index array is at most 7, so each
index references a valid entry of the 8-vertex array. -/
theorem C9_indices_in_bounds :
    (∀ i ∈ indices, i ≤ 7) ∧ vertices.length = 8 :=
  ⟨by decide, rfl⟩

/-- C10: for an activeSpace value outside {0,1,2,3} the shader's if/else-if
chain assigns neither output (result none); and the fall-through is
unreachable from the host program, whose activeSpace after any event
sequence always yields an assigned (some) result. -/
theorem C10_shader_fallthrough (a : Int) (m v p : Mat4) (aPos : Vec3)
    (h : a ∉ ({0, 1, 2, 3} : Finset Int)) :
    vertexShaderMain a m v p aPos = none ∧
    (∀ events : List (Int × Int),
      (vertexShaderMain (activeSpaceAfter events) m v p aPos).isSome = true) := by
  constructor
  · simp only [Finset.mem_insert, Finset.mem_singleton, not_or] at h
    obtain ⟨h0, h1, h2, h3⟩ := h
    simp [vertexShaderMain, h0, h1, h2, h3]
  · intro events
    exact vertexShaderMain_isSome_of_mem _ m v p aPos (activeSpaceAfter_mem events)

/-- C10 witness: activeSpace 4 with identity matrices and the origin
position leaves the outputs unassigned. -/
theorem C10_witness :
    vertexShaderMain 4 mat4one mat4one mat4one ⟨0, 0, 0⟩ = none :=
  (C10_shader_fallthrough 4 mat4one mat4one mat4one ⟨0, 0, 0⟩ (by decide)).1

end CGISR
